import Mathlib

/-!
# Verification of the code_puppy sandbox subsystem

A shallow embedding, in Lean 4, of the parts of the `code_puppy`
repository that the specification's claims are about:

* `code_puppy/sandbox/network_proxy.py` — domain allowlist matching
  (`NetworkProxyServer._is_domain_allowed`);
* `code_puppy/sandbox/config.py` — the persisted policy store
  (`SandboxConfig` and its add-operations);
* `code_puppy/sandbox/linux_isolator.py` — the bubblewrap invocation
  builder (`BubblewrapIsolator.wrap_command`);
* `code_puppy/sandbox/command_wrapper.py` — the orchestrator
  (`SandboxCommandWrapper.wrap_command`, `is_command_excluded`);
* `code_puppy/tools/command_runner.py` — terminal-result construction of
  the process supervisor (`run_shell_command_streaming`, `_truncate_line`);
* `code_puppy/sandbox/domain_approval.py` — the single-flight approval
  gate (`DomainApprovalHandler.request_approval`), modelled as an
  interleaving machine over the atomic blocks of the coroutine.

Python strings are modelled as `String` (indexing/slicing by code point,
matching Python semantics), machine-external facts (the filesystem, the
process environment, `Path.resolve`) as explicit oracle parameters, and
fallible code as `Except`.
-/

set_option maxRecDepth 20000

namespace CodePuppy

/-! ## Generic list helpers -/

/-- The last `n` elements of a list (Python `l[-n:]` for `n > 0`). -/
def lastN (n : Nat) (l : List α) : List α :=
  l.drop (l.length - n)

/-- Does the list contain `a` immediately followed by `b`?  This is how we
read "the generated invocation contains the argument pair `a b`". -/
def hasPair (a b : String) : List String → Bool
  | [] => false
  | [_] => false
  | x :: y :: rest => (x = a && y = b) || hasPair a b (y :: rest)

/-! ## Domain allowlist matching

Embedding of `NetworkProxyServer._is_domain_allowed`
(`code_puppy/sandbox/network_proxy.py`, lines 131–153).  The
`allowed_domains` set is modelled as a list with set-like membership; the
optional asynchronous approval callback is modelled as an optional boolean
function (awaiting it is a pure call here, which is faithful for the
allowlist-matching claims). -/

/-- Splitting a character list at every occurrence of `sep`, keeping empty
pieces — Python `str.split(sep)` semantics for a one-character separator
(`"".split(".") == [""]`, `".".split(".") == ["", ""]`). -/
def splitOnCharAux (sep : Char) : List Char → List Char → List String
  | [], acc => [String.mk acc.reverse]
  | c :: rest, acc =>
    if c = sep then String.mk acc.reverse :: splitOnCharAux sep rest []
    else splitOnCharAux sep rest (c :: acc)

def splitOnChar (sep : Char) (s : String) : List String :=
  splitOnCharAux sep s.data []

/-- Python `str.lower()` (ASCII case, which is all that appears in domain
names). -/
def pyLower (s : String) : String :=
  String.mk (s.data.map Char.toLower)

/-- Python `".".join(parts)`. -/
def joinDot : List String → String
  | [] => ""
  | [p] => p
  | p :: rest => p ++ "." ++ joinDot rest

/-- Python `domain.split(".")`. -/
def domainParts (domain : String) : List String :=
  splitOnChar '.' domain

/-- The wildcard candidates tested by the loop
`for i in range(len(parts)): wildcard = "*." + ".".join(parts[i:])`.
Note the loop starts at `i = 0`, so the first candidate is
`"*." ++ domain` itself. -/
def wildcardCandidates (domain : String) : List String :=
  (List.range (domainParts domain).length).map
    (fun i => "*." ++ joinDot ((domainParts domain).drop i))

/-- `_is_domain_allowed`: returns whether the domain is allowed together
with the (possibly grown) allowlist.  `cb` is the approval callback. -/
def isDomainAllowed (allowed : List String) (cb : Option (String → Bool))
    (domain : String) : Bool × List String :=
  let d := pyLower domain
  if d ∈ allowed then (true, allowed)
  else if (wildcardCandidates d).any (fun w => decide (w ∈ allowed)) then
    (true, allowed)
  else
    match cb with
    | some f => if f d then (true, d :: allowed) else (false, allowed)
    | none => (false, allowed)

/-- "d ends with .s" — the property the spec uses for wildcard matching. -/
def endsWithDot (d s : String) : Prop :=
  ("." ++ s).data.IsSuffix d.data

instance (d s : String) : Decidable (endsWithDot d s) := by
  unfold endsWithDot
  infer_instance

/-! ## Policy store

Embedding of `SandboxConfig` (`code_puppy/sandbox/config.py`).  Only the
in-memory `_config` state is modelled; `save()` writes the same state to
disk and does not change it.  `Path(path).resolve()` is an OS call and is
passed in as the `resolve` oracle. -/

structure SandboxConfig where
  enabled : Bool := false
  filesystem_isolation : Bool := true
  network_isolation : Bool := true
  allowed_domains : List String := []
  allowed_read_paths : List String := []
  allowed_write_paths : List String := []
  denied_read_paths : List String := []
  require_approval_for_new_domains : Bool := true
  read_scope : String := "broad"
  http_proxy_port : Nat := 9050
  socks_proxy_port : Nat := 9051
  excluded_commands : List String := ["docker", "watchman", "podman", "systemctl"]
  allow_unsandboxed_commands : Bool := true
  max_memory_mb : Option Nat := none
  max_cpu_percent : Option Nat := none
  max_execution_time : Option Nat := none
deriving Repr, DecidableEq

/-- `add_allowed_domain` (config.py lines 114–120): append iff absent. -/
def addAllowedDomain (c : SandboxConfig) (domain : String) : SandboxConfig :=
  if domain ∈ c.allowed_domains then c
  else { c with allowed_domains := c.allowed_domains ++ [domain] }

/-- `add_allowed_read_path` (config.py lines 135–142): normalize through
`Path(path).resolve()` (the `resolve` oracle), append iff absent. -/
def addAllowedReadPath (resolve : String → String) (c : SandboxConfig)
    (path : String) : SandboxConfig :=
  let absPath := resolve path
  if absPath ∈ c.allowed_read_paths then c
  else { c with allowed_read_paths := c.allowed_read_paths ++ [absPath] }

/-- `add_allowed_write_path` (config.py lines 149–156). -/
def addAllowedWritePath (resolve : String → String) (c : SandboxConfig)
    (path : String) : SandboxConfig :=
  let absPath := resolve path
  if absPath ∈ c.allowed_write_paths then c
  else { c with allowed_write_paths := c.allowed_write_paths ++ [absPath] }

/-- `add_denied_read_path` (config.py lines 241–248). -/
def addDeniedReadPath (resolve : String → String) (c : SandboxConfig)
    (path : String) : SandboxConfig :=
  let absPath := resolve path
  if absPath ∈ c.denied_read_paths then c
  else { c with denied_read_paths := c.denied_read_paths ++ [absPath] }

/-! ## Sandbox options and OS oracle -/

/-- `SandboxOptions` (`code_puppy/sandbox/base.py`).  The dataclass
defaults (including `__post_init__` replacing `None` lists) are the field
defaults here; the orchestrator always passes explicit lists from the
policy, so the `None` branches of `__post_init__` are not taken there. -/
structure SandboxOptions where
  filesystem_isolation : Bool := true
  allowed_read_paths : List String := []
  allowed_write_paths : List String := []
  denied_read_paths : List String :=
    ["~/.ssh", "~/.aws", "~/.gnupg", "~/.config/gcloud", "/etc/passwd", "/etc/shadow"]
  read_scope : String := "broad"
  network_isolation : Bool := true
  proxy_socket_path : Option String := none
  cwd : String := "."
  env : Option (List (String × String)) := none
  max_memory_mb : Option Nat := none
  max_cpu_percent : Option Nat := none
  max_execution_time : Option Nat := none
deriving Repr

/-- Python truthiness of an optional string (`None` and `""` are falsy). -/
def optStrTruthy : Option String → Bool
  | some s => s ≠ ""
  | none => false

/-- Python truthiness of an optional integer (`None` and `0` are falsy). -/
def optNatTruthy : Option Nat → Bool
  | some n => n ≠ 0
  | none => false

/-- The OS-dependent calls made while building an isolation invocation,
passed in explicitly: `os.path.exists`, `os.path.expanduser`,
`os.path.abspath`, `shutil.which("systemd-run") is not None`,
`os.environ.get`, and `os.getcwd()`. -/
structure OSOracle where
  pathExists : String → Bool
  expanduser : String → String
  abspath : String → String
  whichSystemdRun : Bool
  environ : String → Option String
  getcwd : String

/-- `shlex.quote`: safe strings pass through, everything else is wrapped
in single quotes with embedded quotes escaped. -/
def shlexSafeChar (c : Char) : Bool :=
  c.isAlphanum || c = '_' || c = '@' || c = '%' || c = '+' || c = '=' ||
    c = ':' || c = ',' || c = '.' || c = '/' || c = '-'

def shlexQuote (s : String) : String :=
  if s = "" then "''"
  else if s.data.all shlexSafeChar then s
  else "'" ++ String.mk (s.data.flatMap
    (fun c => if c = '\'' then "'\"'\"'".data else [c])) ++ "'"

/-! ## Linux isolator

Embedding of `BubblewrapIsolator.wrap_command`
(`code_puppy/sandbox/linux_isolator.py`, lines 23–165) and
`_wrap_with_systemd_run` (lines 167–203). -/

/-- `_wrap_with_systemd_run`. -/
def wrapWithSystemdRun (command : String) (maxMemoryMb maxCpuPercent : Option Nat) :
    String :=
  let args := ["systemd-run", "--user", "--scope", "--quiet"]
    ++ (match maxMemoryMb with
        | some m => if m ≠ 0 then ["--property=MemoryMax=" ++ toString m ++ "M"] else []
        | none => [])
    ++ (match maxCpuPercent with
        | some c => if c ≠ 0 then ["--property=CPUQuota=" ++ toString c ++ "%"] else []
        | none => [])
    ++ ["--", "/bin/sh", "-c", command]
  String.intercalate " " (args.map shlexQuote)

/-- The proxy URL injected for network isolation.  The source hardcodes
this value (`proxy_url = "socks5://localhost:9050"  # Will be configured
later`, line 137); it does not consult `options.proxy_socket_path`. -/
def hardcodedProxyUrl : String := "socks5://localhost:9050"

/-- The fixed allowlist of environment variables re-exported into the
sandbox (lines 120–128). -/
def safeEnvVars : List String :=
  ["PATH", "HOME", "USER", "LANG", "LC_ALL", "TERM", "SHELL"]

/-- `env_vars.get(var) or os.environ.get(var)`, then Python truthiness:
the value used for `--setenv`, if any. -/
def effectiveEnvValue (o : OSOracle) (envVars : List (String × String))
    (var : String) : Option String :=
  let fromEnv := envVars.lookup var
  let v := match fromEnv with
    | some s => if s = "" then o.environ var else some s
    | none => o.environ var
  match v with
  | some s => if s = "" then none else some s
  | none => none

/-- The fixed leading bwrap flags (lines 38–46). -/
def coreArgs : List String :=
  ["bwrap", "--unshare-all", "--share-net", "--die-with-parent", "--new-session"]

/-- Broad scope, lines 59–63: tmpfs overlays over each denied path that
exists (after `os.path.expanduser`). -/
def deniedArgsBroad (o : OSOracle) (denied : List String) : List String :=
  denied.flatMap (fun p =>
    let e := o.expanduser p
    if o.pathExists e then ["--tmpfs", e] else [])

/-- Lines 72–75 / 110–113: a read-write bind for each allowed write path
that exists (after `os.path.abspath`). -/
def writeArgs (o : OSOracle) (writes : List String) : List String :=
  writes.flatMap (fun p =>
    let a := o.abspath p
    if o.pathExists a then ["--bind", a, a] else [])

/-- Restricted scope, lines 104–107: a read-only bind for each allowed
read path that exists. -/
def readArgsRestricted (o : OSOracle) (reads : List String) : List String :=
  reads.flatMap (fun p =>
    let a := o.abspath p
    if o.pathExists a then ["--ro-bind", a, a] else [])

/-- Restricted scope, lines 79–89: the fixed system-directory whitelist. -/
def essentialArgs (o : OSOracle) : List String :=
  ["/usr", "/lib", "/lib64", "/bin", "/sbin"].flatMap (fun p =>
    if o.pathExists p then ["--ro-bind", p, p] else [])

/-- Lines 52–113: the mount arguments, by read scope.  `cwd` is the
already-absolutized working directory. -/
def scopeArgs (o : OSOracle) (options : SandboxOptions) (cwd : String) :
    List String :=
  if options.read_scope = "broad" then
    ["--ro-bind", "/", "/"]
    ++ deniedArgsBroad o options.denied_read_paths
    ++ ["--bind", cwd, cwd]
    ++ ["--bind", "/tmp", "/tmp"]
    ++ writeArgs o options.allowed_write_paths
  else
    essentialArgs o
    ++ ["--proc", "/proc", "--dev", "/dev"]
    ++ ["--tmpfs", "/tmp"]
    ++ ["--bind", cwd, cwd]
    ++ readArgsRestricted o options.allowed_read_paths
    ++ writeArgs o options.allowed_write_paths

/-- Lines 118–133: re-export of the fixed safe environment variables. -/
def envArgs (o : OSOracle) (envVars : List (String × String)) : List String :=
  safeEnvVars.flatMap (fun var =>
    match effectiveEnvValue o envVars var with
    | some v => ["--setenv", var, v]
    | none => [])

/-- Lines 135–143: proxy environment injection.  Active iff
`options.network_isolation and options.proxy_socket_path` is truthy; the
injected URL is the hardcoded placeholder, not the configured address. -/
def proxyArgs (options : SandboxOptions) : List String :=
  if options.network_isolation && optStrTruthy options.proxy_socket_path then
    ["--setenv", "HTTP_PROXY", hardcodedProxyUrl,
     "--setenv", "HTTPS_PROXY", hardcodedProxyUrl,
     "--setenv", "http_proxy", hardcodedProxyUrl,
     "--setenv", "https_proxy", hardcodedProxyUrl]
  else []

/-- Lines 145–153: systemd-run wrapping of the inner command when a
resource limit is truthy and the launcher is installed. -/
def finalCommand (o : OSOracle) (command : String) (options : SandboxOptions) :
    String :=
  if optNatTruthy options.max_memory_mb || optNatTruthy options.max_cpu_percent then
    if o.whichSystemdRun then
      wrapWithSystemdRun command options.max_memory_mb options.max_cpu_percent
    else command
  else command

/-- Lines 155–161: the trailing `/bin/sh -c <command>`. -/
def tailArgs (cmd : String) : List String := ["--", "/bin/sh", "-c", cmd]

/-- The argument list assembled into `bwrap_args` by
`BubblewrapIsolator.wrap_command`, before shell-quoting and joining. -/
def bwrapArgs (o : OSOracle) (command : String) (options : SandboxOptions) :
    List String :=
  let cwd := o.abspath options.cwd
  coreArgs ++ scopeArgs o options cwd ++ ["--chdir", cwd]
    ++ envArgs o (options.env.getD []) ++ proxyArgs options
    ++ tailArgs (finalCommand o command options)

/-- `BubblewrapIsolator.wrap_command`: the shell-quoted invocation string
and the environment dict (`env_vars = options.env or {}`, returned as-is). -/
def linuxWrapCommand (o : OSOracle) (command : String)
    (options : SandboxOptions) : String × List (String × String) :=
  (String.intercalate " " ((bwrapArgs o command options).map shlexQuote),
   options.env.getD [])

/-! ## Sandbox orchestrator

Embedding of `SandboxCommandWrapper`
(`code_puppy/sandbox/command_wrapper.py`).  The filesystem isolator the
wrapper delegates to is abstracted as an `IsolatorModel` (availability
flag plus a possibly-raising wrap function); Python exceptions are
`Except.error`.

A faithfulness note that matters below: line 129 of the source reads
`options.proxy_socket_path = f"127.0.0.1:{self.config.proxy_port}"`, but
`SandboxConfig` defines no attribute `proxy_port` (its properties are
`http_proxy_port` and `socks_proxy_port`, config.py lines 169–189), so
evaluating that f-string raises `AttributeError`.  The access sits outside
the `try`/`except` that guards `isolator.wrap_command`, hence the error
propagates out of `wrap_command`.  The embedding renders this as
`Except.error PyError.attributeError`. -/

inductive PyError where
  | attributeError
  | otherError (msg : String)
deriving Repr, DecidableEq

/-- A filesystem isolation strategy as the orchestrator sees it:
`is_available()` and a `wrap_command` that may raise. -/
structure IsolatorModel where
  available : Bool
  wrap : String → SandboxOptions → Except PyError (String × List (String × String))

/-- Python `command.strip().split()`: split on whitespace runs, dropping
empty pieces. -/
def splitWsAux : List Char → List Char → List String
  | [], acc => if acc.isEmpty then [] else [String.mk acc.reverse]
  | c :: rest, acc =>
    if c.isWhitespace then
      if acc.isEmpty then splitWsAux rest []
      else String.mk acc.reverse :: splitWsAux rest []
    else splitWsAux rest (c :: acc)

def pySplitWs (s : String) : List String :=
  splitWsAux s.data []

/-- `is_command_excluded` (command_wrapper.py lines 58–81): first
whitespace-delimited token, matched by exact name or `/`-suffix. -/
def isCommandExcluded (excludedCommands : List String) (command : String) : Bool :=
  match pySplitWs command with
  | [] => false
  | base :: _ =>
    excludedCommands.any (fun e =>
      base = e || ("/" ++ e).data.isSuffixOf base.data)

/-- `SandboxCommandWrapper.wrap_command` (lines 83–149).
`proxyWired` is `self.proxy_server is not None`. -/
def wrapCommand (cfg : SandboxConfig) (proxyWired : Bool)
    (isolator : IsolatorModel) (o : OSOracle) (command : String)
    (cwd : Option String) (env : Option (List (String × String))) :
    Except PyError (String × List (String × String) × Bool) :=
  if !cfg.enabled then
    .ok (command, env.getD [], false)
  else if isCommandExcluded cfg.excluded_commands command then
    .ok (command, env.getD [], true)
  else
    let cwd' := cwd.getD o.getcwd
    let options : SandboxOptions :=
      { filesystem_isolation := cfg.filesystem_isolation
        network_isolation := cfg.network_isolation
        allowed_read_paths := cfg.allowed_read_paths
        allowed_write_paths := cfg.allowed_write_paths
        denied_read_paths := cfg.denied_read_paths
        read_scope := cfg.read_scope
        cwd := cwd'
        env := env
        max_memory_mb := cfg.max_memory_mb
        max_cpu_percent := cfg.max_cpu_percent
        max_execution_time := cfg.max_execution_time }
    -- `if self.config.network_isolation and self.proxy_server:` — the body
    -- reads the nonexistent `self.config.proxy_port`: AttributeError.
    if cfg.network_isolation && proxyWired then
      .error .attributeError
    else
      if cfg.filesystem_isolation then
        if isolator.available then
          match isolator.wrap command options with
          | .ok (wrappedCmd, wrappedEnv) => .ok (wrappedCmd, wrappedEnv, false)
          | .error _ =>
            -- `except Exception`: log and fall through to the unwrapped return
            .ok (command, env.getD [], false)
        else
          .ok (command, env.getD [], false)
      else
        .ok (command, env.getD [], false)

/-! ## Process supervisor terminal results

Embedding of the result construction of `run_shell_command_streaming`
(`code_puppy/tools/command_runner.py`, lines 440–632) and `_truncate_line`
(lines 41–45).  The two reader threads append `_truncate_line(line)` for
every streamed line (each buffer has a single writer, so each buffer is
the in-order image of its stream); which terminal transition fires is an
input here. -/

def MAX_LINE_LENGTH : Nat := 256

/-- `_truncate_line`: lines over 256 characters are cut to 256 characters
and suffixed with `"... [truncated]"` (15 characters). -/
def truncateLine (line : String) : String :=
  if line.length > MAX_LINE_LENGTH then
    String.mk (line.data.take MAX_LINE_LENGTH) ++ "... [truncated]"
  else line

/-- Which exit path of `run_shell_command_streaming` produced the result:
a timeout (absolute ceiling or inactivity, lines 549–563), a process exit
with the given code (lines 567–621), or an internal exception
(lines 623–632). -/
inductive Transition where
  | timeout
  | exited (code : Int)
  | exception (msg : String)
deriving Repr, DecidableEq

/-- The result value (`ShellCommandOutput`). -/
structure ShellCommandOutput where
  success : Bool
  command : String
  error : Option String := none
  stdout : String := ""
  stderr : String := ""
  exit_code : Option Int := none
  execution_time : Option Nat := none
  timeout : Bool := false
  user_interrupted : Bool := false
  user_feedback : Option String := none
deriving Repr

/-- The reader threads' buffer: every streamed line is appended through
`_truncate_line` (lines 457–481). -/
def streamBuffer (rawLines : List String) : List String :=
  rawLines.map truncateLine

/-- The stdout lines retained in the terminal result, per transition:
`stdout_lines[-256:]` re-truncated on the exit paths (lines 594, 610),
`stdout_lines[-256:]` on the timeout path (line 530), and
`stdout_lines[-1000:]` on the exception path (line 628). -/
def retainedLines (t : Transition) (rawLines : List String) : List String :=
  match t with
  | .timeout => lastN 256 (streamBuffer rawLines)
  | .exited _ => (lastN 256 (streamBuffer rawLines)).map truncateLine
  | .exception _ => lastN 1000 (streamBuffer rawLines)

/-- Terminal-result construction of `run_shell_command_streaming`.
`rawOut`/`rawErr` are the newline-free lines read from the child's pipes,
`execTime` the wall-clock duration, `userKilled` whether
`process.pid in _USER_KILLED_PROCESSES`. -/
def terminalResult (command : String) (timeoutSecs : Nat) (execTime : Nat)
    (userKilled : Bool) (rawOut rawErr : List String) (t : Transition) :
    ShellCommandOutput :=
  match t with
  | .timeout =>
    { success := false
      command := command
      stdout := String.intercalate "\n" (retainedLines .timeout rawOut)
      stderr := String.intercalate "\n" (retainedLines .timeout rawErr)
      exit_code := some (-9)
      execution_time := some execTime
      timeout := true
      error := some ("Command timed out after " ++ toString timeoutSecs ++ " seconds") }
  | .exited code =>
    if code ≠ 0 then
      { success := false
        command := command
        error := some "The process didn't exit cleanly! If the user_interrupted flag is true,\n                please stop all execution and ask the user for clarification!"
        stdout := String.intercalate "\n" (retainedLines (.exited code) rawOut)
        stderr := String.intercalate "\n" (retainedLines (.exited code) rawErr)
        exit_code := some code
        execution_time := some execTime
        timeout := false
        user_interrupted := userKilled }
    else
      { success := true
        command := command
        stdout := String.intercalate "\n" (retainedLines (.exited code) rawOut)
        stderr := String.intercalate "\n" (retainedLines (.exited code) rawErr)
        exit_code := some code
        execution_time := some execTime
        timeout := false }
  | .exception msg =>
    { success := false
      command := command
      error := some ("Error during streaming execution: " ++ msg)
      stdout := String.intercalate "\n" (retainedLines (.exception msg) rawOut)
      stderr := String.intercalate "\n" (retainedLines (.exception msg) rawErr)
      exit_code := some (-1)
      timeout := false }

/-! ## Domain approval gate

Embedding of `DomainApprovalHandler.request_approval`
(`code_puppy/sandbox/domain_approval.py`, lines 25–61) for two concurrent
requests for the same domain, as an interleaving machine over the
coroutine's atomic blocks.  Under asyncio, code between `await` points is
atomic; `request_approval` has exactly these blocks:

* entry (lines 36–41): check `_pending_approvals[domain]`; if present,
  start awaiting that future; otherwise install a fresh future and start
  awaiting the callback;
* callback return (lines 46–61): receive the callback's answer, call
  `future.set_result(answer)`, return it, and (in `finally`) pop the
  pending entry — all without an intervening `await`;
* future resolution: a waiter's `await future` resumes with the stored
  value after it is set.

`answers k` is the value the `(k+1)`-th callback invocation returns;
`count` counts callback invocations.  Futures are identified by the
request (`0` or `1`) that created them.  The `overlap` ghost flag latches
once both requests are simultaneously in flight — the claim's "outstanding
concurrently". -/

inductive ReqState where
  | notStarted
  | waiting (fid : Bool)
  | invoking (fid : Bool)
  | done (result : Bool)
deriving Repr, DecidableEq

def ReqState.inFlight : ReqState → Bool
  | .waiting _ => true
  | .invoking _ => true
  | _ => false

structure GateState where
  /-- `_pending_approvals[domain]`, holding the id of the pending future. -/
  table : Option Bool
  /-- Resolution state of the future created by request `0` / request `1`. -/
  fut : Bool → Option Bool
  r0 : ReqState
  r1 : ReqState
  /-- Number of callback invocations so far. -/
  count : Nat
  /-- Ghost: both requests have been in flight at the same moment. -/
  overlap : Bool

def initGate : GateState :=
  { table := none, fut := fun _ => none, r0 := .notStarted, r1 := .notStarted,
    count := 0, overlap := false }

def reqOf (g : GateState) (i : Bool) : ReqState := if i then g.r1 else g.r0

def setReq (g : GateState) (i : Bool) (s : ReqState) : GateState :=
  if i then { g with r1 := s } else { g with r0 := s }

/-- One atomic block of request `i` (no-op when the request is blocked on
an unresolved future or already done). -/
def gateStep (answers : Nat → Bool) (g : GateState) (i : Bool) : GateState :=
  let g' :=
    match reqOf g i with
    | .notStarted =>
      match g.table with
      | some f => setReq g i (.waiting f)          -- line 37: await existing future
      | none => setReq { g with table := some i } i (.invoking i)  -- lines 40–41, 46
    | .invoking f =>
      -- lines 46–61: callback returned `answers g.count`; set_result, return, pop
      let v := answers g.count
      setReq { g with fut := fun j => if j = f then some v else g.fut j,
                      table := none, count := g.count + 1 } i (.done v)
    | .waiting f =>
      match g.fut f with
      | some v => setReq g i (.done v)             -- future resolved: resume
      | none => g                                  -- still pending: no state change
    | .done _ => g
  if (reqOf g' true).inFlight && (reqOf g' false).inFlight then
    { g' with overlap := true }
  else g'

/-- Run the machine under an interleaving schedule. -/
def gateRun (answers : Nat → Bool) (sched : List Bool) : GateState :=
  sched.foldl (gateStep answers) initGate

/-- Adjacent triple search: does the list contain `a`, `b`, `c`
consecutively? -/
def hasTriple (a b c : String) : List String → Bool
  | x :: y :: z :: rest => (x = a && y = b && z = c) || hasTriple a b c (y :: z :: rest)
  | _ => false

/-- The value of the first `--setenv var value` triple for `var`. -/
def setenvValue (var : String) : List String → Option String
  | x :: y :: z :: rest =>
    if x = "--setenv" && y = var then some z else setenvValue var (y :: z :: rest)
  | _ => none

/-! ## Concrete fixtures used by witnesses and counterexamples -/

/-- A concrete OS oracle: nothing exists on disk, path normalization is
the identity, no `systemd-run`, empty process environment, cwd `/work`. -/
def testOracle : OSOracle :=
  { pathExists := fun _ => false
    expanduser := id
    abspath := id
    whichSystemdRun := false
    environ := fun _ => none
    getcwd := "/work" }

/-- A concrete (unavailable) isolator. -/
def testIsolator : IsolatorModel :=
  { available := false
    wrap := fun c o => .ok (c, o.env.getD []) }

/-! ## C1 — wildcard allowlist matching -/

/-! ## Gate machine state classes and reserved tokens -/

/-- A gate state with request `i` in state `ri` and the other request in
state `rj`. -/
def mkGS (i : Bool) (ri rj : ReqState) (table : Option Bool)
    (fut : Bool → Option Bool) (count : Nat) (overlap : Bool) : GateState :=
  { table := table, fut := fut,
    r0 := if i then rj else ri, r1 := if i then ri else rj,
    count := count, overlap := overlap }

/-- Request `i` has installed its future and awaits the callback. -/
def gateS1 (i : Bool) : GateState :=
  mkGS i (.invoking i) .notStarted (some i) (fun _ => none) 0 false

/-- Both requests in flight: `i` awaits the callback, the other awaits
`i`'s future. -/
def gateS2 (i : Bool) : GateState :=
  mkGS i (.invoking i) (.waiting i) (some i) (fun _ => none) 0 true

/-- The callback returned `a`: `i` resolved its future and popped the
table; the other request still awaits the future. -/
def gateS3 (i : Bool) (a : Bool) : GateState :=
  mkGS i (.done a) (.waiting i) none (fun j => if j = i then some a else none) 1 true

/-- Both requests done with the single callback answer `a`. -/
def gateS4 (i : Bool) (a : Bool) : GateState :=
  mkGS i (.done a) (.done a) none (fun j => if j = i then some a else none) 1 true

/-- Request `i` finished before the other started (no overlap). -/
def gateS5 (i : Bool) (a : Bool) : GateState :=
  mkGS i (.done a) .notStarted none (fun j => if j = i then some a else none) 1 false

/-- The late request installed its own future (no overlap). -/
def gateS6 (i : Bool) (a : Bool) : GateState :=
  mkGS i (.done a) (.invoking !i) (some !i)
    (fun j => if j = i then some a else none) 1 false

/-- Both done after two separate callback invocations (no overlap). -/
def gateS7 (i : Bool) (a b : Bool) : GateState :=
  mkGS i (.done a) (.done b) none
    (fun j => if j = !i then some b else if j = i then some a else none) 2 false

/-- The reachable-state invariant of the two-request gate machine. -/
def GateInv (ans : Nat → Bool) (g : GateState) : Prop :=
  g = initGate ∨
  (∃ i, g = gateS1 i) ∨
  (∃ i, g = gateS2 i) ∨
  (∃ i, g = gateS3 i (ans 0)) ∨
  (∃ i, g = gateS4 i (ans 0)) ∨
  (∃ i, g = gateS5 i (ans 0)) ∨
  (∃ i, g = gateS6 i (ans 0)) ∨
  (∃ i, g = gateS7 i (ans 0) (ans 1))

def reservedTokens : List String :=
  ["bwrap", "--unshare-all", "--share-net", "--die-with-parent",
   "--new-session", "--ro-bind", "/", "--tmpfs", "--bind", "/tmp",
   "--proc", "/proc", "--dev", "/dev", "--chdir", "--setenv", "--",
   "/bin/sh", "-c", "/usr", "/lib", "/lib64", "/bin", "/sbin"]
  ++ safeEnvVars

/-- The list does not start with `b`. -/
def headNe (b : String) (l : List String) : Prop :=
  ∀ c, l.head? = some c → c ≠ b

/-! ## General list lemmas -/

theorem lastN_length_le (n : Nat) (l : List α) : (lastN n l).length ≤ n := by
  simp only [lastN, List.length_drop]
  omega

theorem mem_lastN {n : Nat} {l : List α} {x : α} (hx : x ∈ lastN n l) : x ∈ l :=
  List.mem_of_mem_drop hx

theorem hasPair_cons_cons {a b x y : String} {rest : List String} :
    hasPair a b (x :: y :: rest) =
      ((x = a && y = b) || hasPair a b (y :: rest)) := rfl

theorem hasPair_append_left {a b : String} {xs : List String} (ys : List String)
    (h : hasPair a b xs = true) : hasPair a b (xs ++ ys) = true := by
  induction xs with
  | nil => simp [hasPair] at h
  | cons x xs ih =>
    cases xs with
    | nil => simp [hasPair] at h
    | cons y rest =>
      rw [hasPair_cons_cons] at h
      rcases Bool.or_eq_true_iff.mp h with h1 | h2
      · simp only [List.cons_append, hasPair_cons_cons]
        exact Bool.or_eq_true_iff.mpr (Or.inl h1)
      · simp only [List.cons_append, hasPair_cons_cons]
        exact Bool.or_eq_true_iff.mpr (Or.inr (ih h2))

theorem hasPair_append_right {a b : String} (xs : List String) {ys : List String}
    (h : hasPair a b ys = true) : hasPair a b (xs ++ ys) = true := by
  induction xs with
  | nil => simpa using h
  | cons x xs ih =>
    cases hxs : xs ++ ys with
    | nil =>
      rcases List.append_eq_nil.mp hxs with ⟨_, h2⟩
      subst h2; simp [hasPair] at h
    | cons z rest =>
      simp only [List.cons_append, hxs, hasPair_cons_cons]
      rw [hxs] at ih
      exact Bool.or_eq_true_iff.mpr (Or.inr ih)

/-- Appending lists neither of which has the pair, where the second does not
start with `b`, yields a list without the pair. -/
theorem hasPair_append_false {a b : String} {xs ys : List String}
    (hx : hasPair a b xs = false) (hy : hasPair a b ys = false)
    (hhead : ∀ c, ys.head? = some c → c ≠ b) :
    hasPair a b (xs ++ ys) = false := by
  induction xs with
  | nil => simpa using hy
  | cons x xs ih =>
    cases xs with
    | nil =>
      cases ys with
      | nil => simp [hasPair]
      | cons y rest =>
        have hyb : y ≠ b := hhead y rfl
        simp only [List.cons_append, List.nil_append, hasPair_cons_cons]
        simp only [Bool.or_eq_false_iff]
        constructor
        · simp [hyb]
        · exact hy
    | cons x' rest =>
      rw [hasPair_cons_cons] at hx
      simp only [Bool.or_eq_false_iff] at hx
      have h1 := hx.1
      have h2 := ih hx.2
      simp only [List.cons_append] at h2 ⊢
      rw [hasPair_cons_cons]
      simp only [Bool.or_eq_false_iff]
      exact ⟨h1, h2⟩

theorem head?_flatMap {f : α → List String} {l : List α} {c : String}
    (h : (l.flatMap f).head? = some c) : ∃ x ∈ l, (f x).head? = some c := by
  induction l with
  | nil => simp [List.flatMap] at h
  | cons x xs ih =>
    rw [List.flatMap_cons] at h
    cases hfx : f x with
    | nil =>
      rw [hfx, List.nil_append] at h
      obtain ⟨y, hy, hc⟩ := ih h
      exact ⟨y, List.mem_cons_of_mem _ hy, hc⟩
    | cons z rest =>
      rw [hfx] at h
      simp only [List.cons_append, List.head?_cons] at h
      exact ⟨x, List.mem_cons_self x xs, by rw [hfx]; simpa using h⟩

/-- A `flatMap` of blocks none of which contains the pair internally and none
of which starts with `b` contains no pair. -/
theorem hasPair_flatMap_false {a b : String} {f : α → List String} {l : List α}
    (hblock : ∀ x ∈ l, hasPair a b (f x) = false)
    (hstart : ∀ x ∈ l, ∀ c, (f x).head? = some c → c ≠ b) :
    hasPair a b (l.flatMap f) = false := by
  induction l with
  | nil => simp [List.flatMap, hasPair]
  | cons x xs ih =>
    rw [List.flatMap_cons]
    refine hasPair_append_false (hblock x (List.mem_cons_self x xs)) ?_ ?_
    · exact ih (fun y hy => hblock y (List.mem_cons_of_mem _ hy))
        (fun y hy => hstart y (List.mem_cons_of_mem _ hy))
    · intro c hc
      obtain ⟨y, hy, hc'⟩ := head?_flatMap hc
      exact hstart y (List.mem_cons_of_mem _ hy) c hc'

theorem hasPair_flatMap_of_mem {a b : String} {f : α → List String} {l : List α}
    {x : α} (hx : x ∈ l) (h : hasPair a b (f x) = true) :
    hasPair a b (l.flatMap f) = true := by
  induction l with
  | nil => cases hx
  | cons y ys ih =>
    rw [List.flatMap_cons]
    rcases List.mem_cons.mp hx with h1 | h2
    · subst h1; exact hasPair_append_left _ h
    · exact hasPair_append_right _ (ih h2)

theorem count_append_singleton (l : List String) (a : String) :
    (l ++ [a]).count a = l.count a + 1 := by
  simp [List.count_append]

/-- Generic add-iff-absent idempotence: two applications leave exactly one
occurrence, provided the entry occurred at most once beforehand. -/
theorem addUnique_twice_count {l : List String} {a : String}
    (h : l.count a ≤ 1) :
    (let l1 := if a ∈ l then l else l ++ [a];
     let l2 := if a ∈ l1 then l1 else l1 ++ [a];
     l2.count a) = 1 := by
  by_cases hmem : a ∈ l
  · have h1 : 1 ≤ l.count a := List.one_le_count_iff.mpr hmem
    simp only [hmem, if_pos]
    omega
  · have h0 : l.count a = 0 := List.count_eq_zero.mpr hmem
    have hmem1 : a ∈ l ++ [a] := by simp
    simp only [hmem, if_neg, if_pos hmem1, not_false_iff]
    simp [List.count_append, h0]

/-- C1: the claim says a wildcard entry `*.s` accepts `d` iff `d` ends
with `.s`, and in particular never accepts the bare suffix `s`.  The code
violates this: the wildcard loop in `_is_domain_allowed` starts at
`i = 0`, so for the domain `example.com` the first candidate tested is
`*.example.com` — the entry matches its own bare suffix.  This also
contradicts the repository's own test
(`test_is_domain_allowed_wildcard_match`, tests/sandbox/test_network_proxy.py
lines 76–86), which asserts that `example.com` must NOT match
`*.example.com`.  This theorem evaluates the code at the failing input:
the bare suffix is accepted although it does not end with
`.example.com`. -/
theorem c1_wildcard_matches_bare_suffix :
    (isDomainAllowed ["*.example.com"] none "example.com").1 = true ∧
      ¬ endsWithDot "example.com" "example.com" ∧
      (isDomainAllowed ["*.example.com"] none "api.example.com").1 = true := by
  refine ⟨by decide, by decide, by decide⟩

/-! ## C6 — disabled policy returns input unchanged -/

/-- C6: when the policy's `enabled` flag is false, `wrap_command` returns
exactly `(cmd, env, false)` for every command, working directory,
environment, isolator, and proxy wiring (command_wrapper.py lines
100–102). -/
theorem c6_disabled_wrap_is_identity (cfg : SandboxConfig) (proxyWired : Bool)
    (isolator : IsolatorModel) (o : OSOracle) (command : String)
    (cwd : Option String) (env : Option (List (String × String)))
    (h : cfg.enabled = false) :
    wrapCommand cfg proxyWired isolator o command cwd env =
      .ok (command, env.getD [], false) := by
  unfold wrapCommand
  rw [h]
  rfl

/-- Witness for C6 at a concrete input. -/
theorem c6_disabled_wrap_is_identity_witness :
    ({} : SandboxConfig).enabled = false ∧
      wrapCommand {} true testIsolator testOracle "echo hi" none
          (some [("A", "1")]) =
        .ok ("echo hi", [("A", "1")], false) :=
  ⟨rfl, c6_disabled_wrap_is_identity {} true testIsolator testOracle "echo hi"
    none (some [("A", "1")]) rfl⟩

/-! ## C2 — excluded commands -/

/-- C2 counterexample: the claim says an excluded leading token yields
`was_excluded = true` "regardless of whether sandboxing is enabled", but
`wrap_command` tests `self.config.enabled` first (line 101): with
sandboxing disabled, `docker ps` — whose leading token is in the default
exclusion list — comes back with `was_excluded = false`. -/
theorem c2_excluded_flag_requires_enabled :
    isCommandExcluded ({} : SandboxConfig).excluded_commands "docker ps" = true ∧
      wrapCommand { enabled := false } false testIsolator testOracle
          "docker ps" none none =
        .ok ("docker ps", [], false) := by
  constructor
  · decide
  · rfl

/-- C2 amended: whenever sandboxing is enabled, a command whose leading
token matches the exclusion list (exact name or `/`-suffix) is returned
unchanged with `was_excluded = true`, in every configuration
(command_wrapper.py lines 104–106); with sandboxing disabled the command
and environment are likewise returned unchanged but `was_excluded` is
false. -/
theorem c2_excluded_commands_pass_through (cfg : SandboxConfig)
    (proxyWired : Bool) (isolator : IsolatorModel) (o : OSOracle)
    (command : String) (cwd : Option String)
    (env : Option (List (String × String)))
    (hexc : isCommandExcluded cfg.excluded_commands command = true) :
    wrapCommand cfg proxyWired isolator o command cwd env =
      if cfg.enabled then .ok (command, env.getD [], true)
      else .ok (command, env.getD [], false) := by
  unfold wrapCommand
  cases he : cfg.enabled with
  | false => rfl
  | true => simp [he, hexc]

/-- Witness for C2's amended theorem at a concrete input. -/
theorem c2_excluded_commands_pass_through_witness :
    isCommandExcluded ({ enabled := true } : SandboxConfig).excluded_commands
        "docker run x" = true ∧
      wrapCommand { enabled := true } true testIsolator testOracle
          "docker run x" none none =
        .ok ("docker run x", [], true) := by
  refine ⟨by decide, ?_⟩
  have h := c2_excluded_commands_pass_through { enabled := true } true
    testIsolator testOracle "docker run x" none none (by decide)
  simpa using h

/-! ## C5 — wrap_command raising to its caller -/

/-- C5: the claim says `SandboxCommandWrapper.wrap_command` never raises.
It does: with sandboxing enabled, a non-excluded command, network
isolation on and a proxy server wired in, line 129 evaluates
`self.config.proxy_port` — an attribute `SandboxConfig` does not define
(its properties are `http_proxy_port`/`socks_proxy_port`) — raising
`AttributeError` outside the `try` that guards `isolator.wrap_command`.
This theorem evaluates the code at such an input: the error propagates
instead of the unwrapped command being returned. -/
theorem c5_wrap_command_raises_attribute_error :
    wrapCommand { enabled := true, network_isolation := true } true
        testIsolator testOracle "echo hi" none none =
      .error .attributeError := by
  rfl

/-! ## C10 — network isolation alone, filesystem isolation off -/

/-- C10: the claim says that with sandboxing enabled and
`filesystem_isolation` false, `wrap_command` returns `(cmd, env, false)`
unchanged "even when network_isolation is true and a proxy server is wired
in".  The code reaches the `options.proxy_socket_path` assignment (line
129) before the filesystem-isolation branch, and that line reads the
nonexistent `self.config.proxy_port`, so with a proxy wired in the call
raises `AttributeError` instead of returning.  (The unchanged return does
hold whenever network isolation is off or no proxy server is wired in.)
This theorem evaluates the code at the failing input, and at the same
configuration with no proxy wired in (where the unchanged return is
reached). -/
theorem c10_network_isolation_only :
    wrapCommand
        { enabled := true, filesystem_isolation := false,
          network_isolation := true }
        true testIsolator testOracle "echo hi" none none =
      .error .attributeError ∧
      wrapCommand
        { enabled := true, filesystem_isolation := false,
          network_isolation := true }
        false testIsolator testOracle "echo hi" none none =
      .ok ("echo hi", [], false) ∧
      wrapCommand
        { enabled := true, filesystem_isolation := false,
          network_isolation := false }
        true testIsolator testOracle "echo hi" none none =
      .ok ("echo hi", [], false) := by
  refine ⟨rfl, rfl, rfl⟩

/-! ## C7 — idempotent policy add operations -/

theorem addAllowedReadPath_paths (resolve : String → String)
    (c : SandboxConfig) (p : String) :
    (addAllowedReadPath resolve c p).allowed_read_paths =
      if resolve p ∈ c.allowed_read_paths then c.allowed_read_paths
      else c.allowed_read_paths ++ [resolve p] := by
  by_cases hm : resolve p ∈ c.allowed_read_paths <;>
    simp [addAllowedReadPath, hm]

theorem addAllowedWritePath_paths (resolve : String → String)
    (c : SandboxConfig) (p : String) :
    (addAllowedWritePath resolve c p).allowed_write_paths =
      if resolve p ∈ c.allowed_write_paths then c.allowed_write_paths
      else c.allowed_write_paths ++ [resolve p] := by
  by_cases hm : resolve p ∈ c.allowed_write_paths <;>
    simp [addAllowedWritePath, hm]

theorem addDeniedReadPath_paths (resolve : String → String)
    (c : SandboxConfig) (p : String) :
    (addDeniedReadPath resolve c p).denied_read_paths =
      if resolve p ∈ c.denied_read_paths then c.denied_read_paths
      else c.denied_read_paths ++ [resolve p] := by
  by_cases hm : resolve p ∈ c.denied_read_paths <;>
    simp [addDeniedReadPath, hm]

theorem addAllowedDomain_domains (c : SandboxConfig) (d : String) :
    (addAllowedDomain c d).allowed_domains =
      if d ∈ c.allowed_domains then c.allowed_domains
      else c.allowed_domains ++ [d] := by
  by_cases hm : d ∈ c.allowed_domains <;> simp [addAllowedDomain, hm]

theorem addUnique_twice_count' {l : List String} {a : String}
    (h : l.count a ≤ 1) :
    ((if a ∈ (if a ∈ l then l else l ++ [a]) then (if a ∈ l then l else l ++ [a])
      else (if a ∈ l then l else l ++ [a]) ++ [a]) : List String).count a = 1 :=
  addUnique_twice_count h

/-- C7: each policy-store add operation is idempotent: adding the same
path (normalized through `Path.resolve`, the `resolve` oracle) or the same
domain twice leaves exactly one occurrence of the normalized entry in the
stored list, provided the entry occurred at most once beforehand — an
invariant every store reachable from the defaults by mutator calls
satisfies, since each add appends only when absent (config.py lines
114–120, 135–142, 149–156, 241–248). -/
theorem c7_policy_adds_idempotent (resolve : String → String)
    (c : SandboxConfig) (p d : String) :
    (c.allowed_read_paths.count (resolve p) ≤ 1 →
      (addAllowedReadPath resolve (addAllowedReadPath resolve c p) p).allowed_read_paths.count (resolve p) = 1) ∧
    (c.allowed_write_paths.count (resolve p) ≤ 1 →
      (addAllowedWritePath resolve (addAllowedWritePath resolve c p) p).allowed_write_paths.count (resolve p) = 1) ∧
    (c.denied_read_paths.count (resolve p) ≤ 1 →
      (addDeniedReadPath resolve (addDeniedReadPath resolve c p) p).denied_read_paths.count (resolve p) = 1) ∧
    (c.allowed_domains.count d ≤ 1 →
      (addAllowedDomain (addAllowedDomain c d) d).allowed_domains.count d = 1) := by
  refine ⟨fun h => ?_, fun h => ?_, fun h => ?_, fun h => ?_⟩
  · rw [addAllowedReadPath_paths, addAllowedReadPath_paths]
    exact addUnique_twice_count' h
  · rw [addAllowedWritePath_paths, addAllowedWritePath_paths]
    exact addUnique_twice_count' h
  · rw [addDeniedReadPath_paths, addDeniedReadPath_paths]
    exact addUnique_twice_count' h
  · rw [addAllowedDomain_domains, addAllowedDomain_domains]
    exact addUnique_twice_count' h

/-- Witness for C7 at a concrete input (default store, identity
resolver). -/
theorem c7_policy_adds_idempotent_witness :
    (addAllowedReadPath id (addAllowedReadPath id {} "/tmp/x") "/tmp/x").allowed_read_paths.count (id "/tmp/x") = 1 ∧
      (addAllowedDomain (addAllowedDomain {} "example.org") "example.org").allowed_domains.count "example.org" = 1 :=
  ⟨(c7_policy_adds_idempotent id {} "/tmp/x" "example.org").1 (by decide),
   (c7_policy_adds_idempotent id {} "/tmp/x" "example.org").2.2.2 (by decide)⟩

/-! ## C3 — terminal output caps -/

theorem truncateLine_length_le (s : String) :
    (truncateLine s).length ≤ MAX_LINE_LENGTH + 15 := by
  unfold truncateLine
  by_cases h : s.length > MAX_LINE_LENGTH
  · rw [if_pos h]
    have hlen : (String.mk (s.data.take MAX_LINE_LENGTH) ++ "... [truncated]").length
        = (s.data.take MAX_LINE_LENGTH).length + 15 := by
      rw [String.length_append]
      rfl
    rw [hlen]
    have := List.length_take_le MAX_LINE_LENGTH s.data
    omega
  · rw [if_neg h]
    omega

theorem retainedLines_line_length_le (t : Transition) (raw : List String) :
    ∀ line ∈ retainedLines t raw, line.length ≤ MAX_LINE_LENGTH + 15 := by
  intro line hline
  cases t with
  | timeout =>
    have h1 : line ∈ streamBuffer raw := mem_lastN hline
    obtain ⟨r, _, hr⟩ := List.mem_map.mp h1
    rw [← hr]
    exact truncateLine_length_le r
  | exited code =>
    obtain ⟨r, _, hr⟩ := List.mem_map.mp hline
    rw [← hr]
    exact truncateLine_length_le r
  | exception msg =>
    have h1 : line ∈ streamBuffer raw := mem_lastN hline
    obtain ⟨r, _, hr⟩ := List.mem_map.mp h1
    rw [← hr]
    exact truncateLine_length_le r

theorem retainedLines_count_le (t : Transition) (raw : List String) :
    (retainedLines t raw).length ≤
      (match t with | .exception _ => 1000 | _ => 256) := by
  cases t with
  | timeout => exact lastN_length_le 256 _
  | exited code =>
    simp only [retainedLines, List.length_map]
    exact lastN_length_le 256 _
  | exception msg => exact lastN_length_le 1000 _

/-- C3 counterexample: the claim says every terminal result caps
stdout/stderr at the last 256 lines with every line at most 256
characters, whichever transition produced it.  On the internal-exception
path the code retains `stdout_lines[-1000:]` (command_runner.py line 628):
257 one-character lines all survive.  And `_truncate_line` produces
`line[:256] + "... [truncated]"` — 271 characters, not 256 (lines 41–45). -/
theorem c3_exception_path_exceeds_caps :
    (retainedLines (.exception "boom") (List.replicate 257 "a")).length = 257 ∧
      257 > 256 ∧
      (truncateLine (String.mk (List.replicate 300 'x'))).length = 271 ∧
      271 > 256 := by
  refine ⟨by decide, by decide, by decide, by decide⟩

theorem terminalResult_exited (command : String) (timeoutSecs execTime : Nat)
    (userKilled : Bool) (rawOut rawErr : List String) (code : Int) :
    terminalResult command timeoutSecs execTime userKilled rawOut rawErr
        (.exited code) =
      if code ≠ 0 then
        { success := false
          command := command
          error := some "The process didn't exit cleanly! If the user_interrupted flag is true,\n                please stop all execution and ask the user for clarification!"
          stdout := String.intercalate "\n" (retainedLines (.exited code) rawOut)
          stderr := String.intercalate "\n" (retainedLines (.exited code) rawErr)
          exit_code := some code
          execution_time := some execTime
          timeout := false
          user_interrupted := userKilled }
      else
        { success := true
          command := command
          stdout := String.intercalate "\n" (retainedLines (.exited code) rawOut)
          stderr := String.intercalate "\n" (retainedLines (.exited code) rawErr)
          exit_code := some code
          execution_time := some execTime
          timeout := false } := rfl

/-- C3 amended: terminal results produced by the clean-exit,
non-zero-exit, and timeout transitions retain at most the last 256 lines;
the internal-exception transition retains at most the last 1000; and every
retained line, on every path, is at most 271 characters — 256 characters
of content plus the 15-character `"... [truncated]"` marker that
`_truncate_line` appends. -/
theorem c3_terminal_output_bounds (command : String)
    (timeoutSecs execTime : Nat) (userKilled : Bool)
    (rawOut rawErr : List String) (t : Transition) :
    (terminalResult command timeoutSecs execTime userKilled rawOut rawErr t).stdout
        = String.intercalate "\n" (retainedLines t rawOut) ∧
    (terminalResult command timeoutSecs execTime userKilled rawOut rawErr t).stderr
        = String.intercalate "\n" (retainedLines t rawErr) ∧
    (retainedLines t rawOut).length ≤
      (match t with | .exception _ => 1000 | _ => 256) ∧
    (retainedLines t rawErr).length ≤
      (match t with | .exception _ => 1000 | _ => 256) ∧
    (∀ line ∈ retainedLines t rawOut, line.length ≤ MAX_LINE_LENGTH + 15) ∧
    (∀ line ∈ retainedLines t rawErr, line.length ≤ MAX_LINE_LENGTH + 15) := by
  refine ⟨?_, ?_, retainedLines_count_le t rawOut, retainedLines_count_le t rawErr,
    retainedLines_line_length_le t rawOut, retainedLines_line_length_le t rawErr⟩
  · cases t with
    | timeout => rfl
    | exited code =>
      rw [terminalResult_exited, apply_ite ShellCommandOutput.stdout]
      split <;> rfl
    | exception msg => rfl
  · cases t with
    | timeout => rfl
    | exited code =>
      rw [terminalResult_exited, apply_ite ShellCommandOutput.stderr]
      split <;> rfl
    | exception msg => rfl

/-- Witness for C3's amended theorem at a concrete input. -/
theorem c3_terminal_output_bounds_witness :
    (terminalResult "echo hi" 60 1 false ["hello"] [] .timeout).stdout
        = String.intercalate "\n" (retainedLines .timeout ["hello"]) ∧
      "hello".length ≤ MAX_LINE_LENGTH + 15 :=
  ⟨(c3_terminal_output_bounds "echo hi" 60 1 false ["hello"] [] .timeout).1,
   (c3_terminal_output_bounds "echo hi" 60 1 false ["hello"] [] .timeout).2.2.2.2.1
     "hello" (by decide)⟩

/-! ## C8 — single-flight domain approval -/

theorem gateInv_step (ans : Nat → Bool) (g : GateState) (j : Bool)
    (h : GateInv ans g) : GateInv ans (gateStep ans g j) := by
  rcases h with h | ⟨i, h⟩ | ⟨i, h⟩ | ⟨i, h⟩ | ⟨i, h⟩ | ⟨i, h⟩ | ⟨i, h⟩ | ⟨i, h⟩ <;>
    subst h <;>
    first
      | (cases j <;>
          first
            | exact Or.inl rfl
            | exact Or.inr (Or.inl ⟨false, rfl⟩)
            | exact Or.inr (Or.inl ⟨true, rfl⟩)
            | exact Or.inr (Or.inr (Or.inl ⟨false, rfl⟩))
            | exact Or.inr (Or.inr (Or.inl ⟨true, rfl⟩))
            | exact Or.inr (Or.inr (Or.inr (Or.inl ⟨false, rfl⟩)))
            | exact Or.inr (Or.inr (Or.inr (Or.inl ⟨true, rfl⟩)))
            | exact Or.inr (Or.inr (Or.inr (Or.inr (Or.inl ⟨false, rfl⟩))))
            | exact Or.inr (Or.inr (Or.inr (Or.inr (Or.inl ⟨true, rfl⟩))))
            | exact Or.inr (Or.inr (Or.inr (Or.inr (Or.inr (Or.inl ⟨false, rfl⟩)))))
            | exact Or.inr (Or.inr (Or.inr (Or.inr (Or.inr (Or.inl ⟨true, rfl⟩)))))
            | exact Or.inr (Or.inr (Or.inr (Or.inr (Or.inr (Or.inr (Or.inl ⟨false, rfl⟩))))))
            | exact Or.inr (Or.inr (Or.inr (Or.inr (Or.inr (Or.inr (Or.inl ⟨true, rfl⟩))))))
            | exact Or.inr (Or.inr (Or.inr (Or.inr (Or.inr (Or.inr (Or.inr ⟨false, rfl⟩))))))
            | exact Or.inr (Or.inr (Or.inr (Or.inr (Or.inr (Or.inr (Or.inr ⟨true, rfl⟩)))))))
      | (cases i <;> cases j <;>
          first
            | exact Or.inl rfl
            | exact Or.inr (Or.inl ⟨false, rfl⟩)
            | exact Or.inr (Or.inl ⟨true, rfl⟩)
            | exact Or.inr (Or.inr (Or.inl ⟨false, rfl⟩))
            | exact Or.inr (Or.inr (Or.inl ⟨true, rfl⟩))
            | exact Or.inr (Or.inr (Or.inr (Or.inl ⟨false, rfl⟩)))
            | exact Or.inr (Or.inr (Or.inr (Or.inl ⟨true, rfl⟩)))
            | exact Or.inr (Or.inr (Or.inr (Or.inr (Or.inl ⟨false, rfl⟩))))
            | exact Or.inr (Or.inr (Or.inr (Or.inr (Or.inl ⟨true, rfl⟩))))
            | exact Or.inr (Or.inr (Or.inr (Or.inr (Or.inr (Or.inl ⟨false, rfl⟩)))))
            | exact Or.inr (Or.inr (Or.inr (Or.inr (Or.inr (Or.inl ⟨true, rfl⟩)))))
            | exact Or.inr (Or.inr (Or.inr (Or.inr (Or.inr (Or.inr (Or.inl ⟨false, rfl⟩))))))
            | exact Or.inr (Or.inr (Or.inr (Or.inr (Or.inr (Or.inr (Or.inl ⟨true, rfl⟩))))))
            | exact Or.inr (Or.inr (Or.inr (Or.inr (Or.inr (Or.inr (Or.inr ⟨false, rfl⟩))))))
            | exact Or.inr (Or.inr (Or.inr (Or.inr (Or.inr (Or.inr (Or.inr ⟨true, rfl⟩)))))))

theorem gateInv_run (ans : Nat → Bool) (sched : List Bool) :
    GateInv ans (gateRun ans sched) := by
  have main : ∀ (l : List Bool) (g : GateState), GateInv ans g →
      GateInv ans (l.foldl (gateStep ans) g) := by
    intro l
    induction l with
    | nil => intro g h; exact h
    | cons x xs ih => intro g h; exact ih _ (gateInv_step ans g x h)
  exact main sched initGate (Or.inl rfl)

/-- C8: under every interleaving of the atomic blocks of two
`request_approval` coroutines for the same domain in which the two
requests are at some moment simultaneously in flight (the `overlap` ghost
flag), if both requests complete then the approval callback was invoked
exactly once and both requests received the same boolean result
(domain_approval.py lines 25–61). -/
theorem c8_single_flight_approval (ans : Nat → Bool) (sched : List Bool)
    (b0 b1 : Bool) (hov : (gateRun ans sched).overlap = true)
    (h0 : (gateRun ans sched).r0 = .done b0)
    (h1 : (gateRun ans sched).r1 = .done b1) :
    (gateRun ans sched).count = 1 ∧ b0 = b1 := by
  rcases gateInv_run ans sched with h | ⟨i, h⟩ | ⟨i, h⟩ | ⟨i, h⟩ | ⟨i, h⟩ |
      ⟨i, h⟩ | ⟨i, h⟩ | ⟨i, h⟩ <;> rw [h] at hov h0 h1 <;>
    [skip; cases i; cases i; cases i; cases i; cases i; cases i; cases i] <;>
    simp_all [initGate, gateS1, gateS2, gateS3, gateS4, gateS5, gateS6, gateS7,
      mkGS]

/-- Witness for C8 at a concrete schedule: request 0 installs the future,
request 1 joins it, the callback answers `true` once, both complete. -/
theorem c8_single_flight_approval_witness :
    (gateRun (fun _ => true) [false, true, false, true]).overlap = true ∧
      (gateRun (fun _ => true) [false, true, false, true]).r0 = .done true ∧
      (gateRun (fun _ => true) [false, true, false, true]).r1 = .done true ∧
      ((gateRun (fun _ => true) [false, true, false, true]).count = 1 ∧
        true = true) :=
  ⟨rfl, rfl, rfl,
   c8_single_flight_approval (fun _ => true) [false, true, false, true]
     true true rfl rfl rfl⟩

/-! ## Argument-pair analysis of the bwrap invocation

Shared by C4 and C9.  `reservedTokens` collects every fixed literal token
the builder can emit; a path or variable name distinct from all of them
(and from the working directory) can appear in the argument list only
through its own bind/tmpfs/setenv production. -/

/-- A three-token block `[f, w, w]` contains no `a b` pair when its flag
differs from `a` and `a ≠ b`. -/
theorem hasPair_bind_block_false {a b f w : String} (hf : ¬ (f = a))
    (hab : a ≠ b) : hasPair a b [f, w, w] = false := by
  have e2 : (decide (w = a) && decide (w = b)) = false := by
    cases hwb : decide (w = b) with
    | false => simp
    | true =>
      have hw : w = b := of_decide_eq_true hwb
      have hwa : ¬ (w = a) := fun h => hab (h.symm.trans hw)
      simp [hwa]
  simp only [hasPair, e2, hf]
  simp

/-- A two-token block `[f, e]` contains no `a b` pair when `e ≠ b`. -/
theorem hasPair_two_block_false {a b f e : String} (he : ¬ (e = b)) :
    hasPair a b [f, e] = false := by
  simp [hasPair, he]

/-- A three-token block `[f, w, w]` contains no `a b` pair when `w ≠ b`. -/
theorem hasPair_fixed_block_false {a b f w : String} (hw : ¬ (w = b)) :
    hasPair a b [f, w, w] = false := by
  simp [hasPair, hw]

/-- An environment re-export block contains no `a b` pair when `var`
differs from both `a` and `b`. -/
theorem hasPair_setenv_block_false {a b var v : String} (hvb : ¬ (var = b))
    (hva : ¬ (var = a)) : hasPair a b ["--setenv", var, v] = false := by
  simp [hasPair, hvb, hva]

theorem headNe_nil {b : String} : headNe b [] := fun _ hc => nomatch hc

theorem headNe_cons {b x : String} {l : List String} (h : ¬ (x = b)) :
    headNe b (x :: l) := by
  intro c hc
  rw [List.head?_cons, Option.some_inj] at hc
  exact hc ▸ h

theorem headNe_append {b : String} {xs ys : List String} (hx : headNe b xs)
    (hy : headNe b ys) : headNe b (xs ++ ys) := by
  cases xs with
  | nil => simpa using hy
  | cons x t => exact fun c hc => hx c (by simpa using hc)

theorem headNe_flatMap {b : String} {f : α → List String} {l : List α}
    (h : ∀ x ∈ l, headNe b (f x)) : headNe b (l.flatMap f) := by
  intro c hc
  obtain ⟨x, hx, hc'⟩ := head?_flatMap hc
  exact h x hx c hc'

/-- Master no-pair lemma: a flag `a` (not `-c`, not a safe variable name)
and a token `b` distinct from every fixed literal, from the working
directory, from every existing normalized configured path, and — when the
proxy injection is active — from the proxy variable names and URL, never
appear adjacently in the generated bwrap invocation. -/
theorem hasPair_bwrapArgs_false (o : OSOracle) (cmd : String)
    (opts : SandboxOptions) (a b : String)
    (ha1 : ¬ ("-c" = a)) (ha2 : a ∉ safeEnvVars)
    (hb1 : b ∉ reservedTokens)
    (hb2 : ¬ (o.abspath opts.cwd = b))
    (hden : ∀ p ∈ opts.denied_read_paths,
      o.pathExists (o.expanduser p) = true → ¬ (o.expanduser p = b))
    (hwr : ∀ p ∈ opts.allowed_write_paths,
      o.pathExists (o.abspath p) = true → ¬ (o.abspath p = b))
    (hrd : ∀ p ∈ opts.allowed_read_paths,
      o.pathExists (o.abspath p) = true → ¬ (o.abspath p = b))
    (hbp : (opts.network_isolation && optStrTruthy opts.proxy_socket_path) = true →
      b ∉ ["HTTP_PROXY", "HTTPS_PROXY", "http_proxy", "https_proxy",
        hardcodedProxyUrl]) :
    hasPair a b (bwrapArgs o cmd opts) = false := by
  have hne : ∀ t ∈ reservedTokens, ¬ (t = b) := fun t ht he => hb1 (he ▸ ht)
  -- tail
  have htail : hasPair a b (tailArgs (finalCommand o cmd opts)) = false := by
    simp [tailArgs, hasPair, hne "/bin/sh" (by decide), hne "-c" (by decide), ha1]
  have htailh : headNe b (tailArgs (finalCommand o cmd opts)) :=
    headNe_cons (hne "--" (by decide))
  -- proxy
  have hproxy : hasPair a b (proxyArgs opts) = false := by
    unfold proxyArgs
    by_cases hact : (opts.network_isolation && optStrTruthy opts.proxy_socket_path) = true
    · have hb := hbp hact
      simp only [List.mem_cons, List.mem_singleton, not_or] at hb
      obtain ⟨n1, n2, n3, n4, n5, _⟩ := hb
      rw [if_pos hact]
      simp [hasPair, Ne.symm n1, Ne.symm n2, Ne.symm n3, Ne.symm n4,
        Ne.symm n5, hne "--setenv" (by decide)]
    · rw [if_neg hact]; rfl
  have hproxyh : headNe b (proxyArgs opts) := by
    unfold proxyArgs
    split
    · exact headNe_cons (hne "--setenv" (by decide))
    · exact headNe_nil
  -- environment re-export
  have henv : hasPair a b (envArgs o (opts.env.getD [])) = false := by
    unfold envArgs
    refine hasPair_flatMap_false ?_ ?_
    · intro var hvar
      cases hv : effectiveEnvValue o (opts.env.getD []) var with
      | none => rfl
      | some v =>
        refine hasPair_setenv_block_false (hne var ?_) (fun he => ha2 (he ▸ hvar))
        unfold reservedTokens
        exact List.mem_append_right _ hvar
    · intro var hvar c hc
      cases hv : effectiveEnvValue o (opts.env.getD []) var with
      | none => rw [hv] at hc; exact nomatch hc
      | some v =>
        rw [hv] at hc
        rw [List.head?_cons, Option.some_inj] at hc
        exact hc ▸ hne "--setenv" (by decide)
  have henvh : headNe b (envArgs o (opts.env.getD [])) := by
    unfold envArgs
    refine headNe_flatMap ?_
    intro var hvar c hc
    cases hv : effectiveEnvValue o (opts.env.getD []) var with
    | none => rw [hv] at hc; exact nomatch hc
    | some v =>
      rw [hv] at hc
      rw [List.head?_cons, Option.some_inj] at hc
      exact hc ▸ hne "--setenv" (by decide)
  -- chdir
  have hchdir : hasPair a b ["--chdir", o.abspath opts.cwd] = false :=
    hasPair_two_block_false hb2
  -- write binds
  have hwrite : hasPair a b (writeArgs o opts.allowed_write_paths) = false := by
    unfold writeArgs
    refine hasPair_flatMap_false ?_ ?_
    · intro p hp
      by_cases hex : o.pathExists (o.abspath p) = true
      · simp only [hex, if_true]
        exact hasPair_fixed_block_false (hwr p hp hex)
      · simp only [hex]; rfl
    · intro p hp c hc
      by_cases hex : o.pathExists (o.abspath p) = true
      · simp only [hex, if_true] at hc
        rw [List.head?_cons, Option.some_inj] at hc
        exact hc ▸ hne "--bind" (by decide)
      · simp only [hex] at hc; exact nomatch hc
  have hwriteh : headNe b (writeArgs o opts.allowed_write_paths) := by
    unfold writeArgs
    refine headNe_flatMap ?_
    intro p hp c hc
    by_cases hex : o.pathExists (o.abspath p) = true
    · simp only [hex, if_true] at hc
      rw [List.head?_cons, Option.some_inj] at hc
      exact hc ▸ hne "--bind" (by decide)
    · simp only [hex] at hc; exact nomatch hc
  -- scope arguments
  have hscope : hasPair a b (scopeArgs o opts (o.abspath opts.cwd)) = false := by
    unfold scopeArgs
    split
    · -- broad: ((((A ++ denied) ++ cwdbind) ++ tmpbind) ++ write)
      have hden' : hasPair a b (deniedArgsBroad o opts.denied_read_paths) = false := by
        unfold deniedArgsBroad
        refine hasPair_flatMap_false ?_ ?_
        · intro p hp
          by_cases hex : o.pathExists (o.expanduser p) = true
          · simp only [hex, if_true]
            exact hasPair_two_block_false (hden p hp hex)
          · simp only [hex]; rfl
        · intro p hp c hc
          by_cases hex : o.pathExists (o.expanduser p) = true
          · simp only [hex, if_true] at hc
            rw [List.head?_cons, Option.some_inj] at hc
            exact hc ▸ hne "--tmpfs" (by decide)
          · simp only [hex] at hc; exact nomatch hc
      have hdenh : headNe b (deniedArgsBroad o opts.denied_read_paths) := by
        unfold deniedArgsBroad
        refine headNe_flatMap ?_
        intro p hp c hc
        by_cases hex : o.pathExists (o.expanduser p) = true
        · simp only [hex, if_true] at hc
          rw [List.head?_cons, Option.some_inj] at hc
          exact hc ▸ hne "--tmpfs" (by decide)
        · simp only [hex] at hc; exact nomatch hc
      refine hasPair_append_false ?_ hwrite hwriteh
      refine hasPair_append_false ?_
        (hasPair_fixed_block_false (hne "/tmp" (by decide)))
        (headNe_cons (hne "--bind" (by decide)))
      refine hasPair_append_false ?_
        (hasPair_fixed_block_false hb2)
        (headNe_cons (hne "--bind" (by decide)))
      exact hasPair_append_false
        (hasPair_fixed_block_false (hne "/" (by decide))) hden' hdenh
    · -- restricted: ((((((ess ++ procdev) ++ tmp) ++ cwdbind) ++ read) ++ write)
      have hess : hasPair a b (essentialArgs o) = false := by
        unfold essentialArgs
        refine hasPair_flatMap_false ?_ ?_
        · intro p hp
          by_cases hex : o.pathExists p = true
          · simp only [hex, if_true]
            refine hasPair_fixed_block_false (hne p ?_)
            fin_cases hp <;> decide
          · simp only [hex]; rfl
        · intro p hp c hc
          by_cases hex : o.pathExists p = true
          · simp only [hex, if_true] at hc
            rw [List.head?_cons, Option.some_inj] at hc
            exact hc ▸ hne "--ro-bind" (by decide)
          · simp only [hex] at hc; exact nomatch hc
      have hread : hasPair a b (readArgsRestricted o opts.allowed_read_paths) = false := by
        unfold readArgsRestricted
        refine hasPair_flatMap_false ?_ ?_
        · intro p hp
          by_cases hex : o.pathExists (o.abspath p) = true
          · simp only [hex, if_true]
            exact hasPair_fixed_block_false (hrd p hp hex)
          · simp only [hex]; rfl
        · intro p hp c hc
          by_cases hex : o.pathExists (o.abspath p) = true
          · simp only [hex, if_true] at hc
            rw [List.head?_cons, Option.some_inj] at hc
            exact hc ▸ hne "--ro-bind" (by decide)
          · simp only [hex] at hc; exact nomatch hc
      have hreadh : headNe b (readArgsRestricted o opts.allowed_read_paths) := by
        unfold readArgsRestricted
        refine headNe_flatMap ?_
        intro p hp c hc
        by_cases hex : o.pathExists (o.abspath p) = true
        · simp only [hex, if_true] at hc
          rw [List.head?_cons, Option.some_inj] at hc
          exact hc ▸ hne "--ro-bind" (by decide)
        · simp only [hex] at hc; exact nomatch hc
      refine hasPair_append_false ?_ hwrite hwriteh
      refine hasPair_append_false ?_ hread hreadh
      refine hasPair_append_false ?_
        (hasPair_fixed_block_false hb2)
        (headNe_cons (hne "--bind" (by decide)))
      refine hasPair_append_false ?_
        (hasPair_two_block_false (hne "/tmp" (by decide)))
        (headNe_cons (hne "--tmpfs" (by decide)))
      refine hasPair_append_false hess ?_
        (headNe_cons (hne "--proc" (by decide)))
      simp [hasPair, hne "/proc" (by decide), hne "--dev" (by decide),
        hne "/dev" (by decide)]
  have hscopeh : headNe b (scopeArgs o opts (o.abspath opts.cwd)) := by
    unfold scopeArgs
    split
    · exact headNe_cons (hne "--ro-bind" (by decide))
    · refine headNe_append (headNe_append (headNe_append (headNe_append
        (headNe_append ?_ (headNe_cons (hne "--proc" (by decide))))
        (headNe_cons (hne "--tmpfs" (by decide))))
        (headNe_cons (hne "--bind" (by decide)))) ?_) ?_
      · unfold essentialArgs
        refine headNe_flatMap ?_
        intro p hp c hc
        by_cases hex : o.pathExists p = true
        · simp only [hex, if_true] at hc
          rw [List.head?_cons, Option.some_inj] at hc
          exact hc ▸ hne "--ro-bind" (by decide)
        · simp only [hex] at hc; exact nomatch hc
      · unfold readArgsRestricted
        refine headNe_flatMap ?_
        intro p hp c hc
        by_cases hex : o.pathExists (o.abspath p) = true
        · simp only [hex, if_true] at hc
          rw [List.head?_cons, Option.some_inj] at hc
          exact hc ▸ hne "--ro-bind" (by decide)
        · simp only [hex] at hc; exact nomatch hc
      · exact hwriteh
  -- core
  have hcore : hasPair a b coreArgs = false := by
    simp [coreArgs, hasPair, hne "--unshare-all" (by decide),
      hne "--share-net" (by decide), hne "--die-with-parent" (by decide),
      hne "--new-session" (by decide)]
  -- assembly: ((((core ++ scope) ++ chdir) ++ env) ++ proxy) ++ tail
  unfold bwrapArgs
  refine hasPair_append_false ?_ htail htailh
  refine hasPair_append_false ?_ hproxy hproxyh
  refine hasPair_append_false ?_ henv henvh
  refine hasPair_append_false ?_ hchdir
    (headNe_cons (hne "--chdir" (by decide)))
  exact hasPair_append_false hcore hscope hscopeh

/-- When the injection condition holds, the proxy segment is part of the
invocation, so its pairs are. -/
theorem hasPair_bwrapArgs_of_proxy (o : OSOracle) (cmd : String)
    (opts : SandboxOptions) {x y : String}
    (h : hasPair x y (proxyArgs opts) = true) :
    hasPair x y (bwrapArgs o cmd opts) = true := by
  unfold bwrapArgs
  exact hasPair_append_left _ (hasPair_append_right _ h)

/-- The four-variable proxy segment, when active. -/
theorem proxyArgs_active (opts : SandboxOptions)
    (hact : (opts.network_isolation && optStrTruthy opts.proxy_socket_path) = true) :
    proxyArgs opts =
      ["--setenv", "HTTP_PROXY", hardcodedProxyUrl,
       "--setenv", "HTTPS_PROXY", hardcodedProxyUrl,
       "--setenv", "http_proxy", hardcodedProxyUrl,
       "--setenv", "https_proxy", hardcodedProxyUrl] := by
  unfold proxyArgs
  rw [if_pos hact]

/-- C4 counterexample: configure the proxy at `127.0.0.1:9999`; the
generated invocation still sets `HTTP_PROXY` to the hardcoded placeholder
`socks5://localhost:9050` (linux_isolator.py line 137, "Will be configured
later"), which is not the configured proxy address and does not even
mention its port. -/
theorem c4_hardcoded_proxy_url :
    (({ network_isolation := true, proxy_socket_path := some "127.0.0.1:9999",
        cwd := "/work" } : SandboxOptions).proxy_socket_path
      = some "127.0.0.1:9999") ∧
      setenvValue "HTTP_PROXY"
          (bwrapArgs testOracle "curl https://example.com"
            { network_isolation := true,
              proxy_socket_path := some "127.0.0.1:9999", cwd := "/work" })
        = some hardcodedProxyUrl ∧
      hardcodedProxyUrl ≠ "http://127.0.0.1:9999" ∧
      ¬ ("9999".data.IsInfix hardcodedProxyUrl.data) := by
  refine ⟨rfl, by decide, by decide, by decide⟩

/-- C4 amended: `wrap_command` sets `HTTP_PROXY`, `HTTPS_PROXY`,
`http_proxy` and `https_proxy` in the generated invocation exactly when
`network_isolation` is true and `proxy_socket_path` is non-empty, and it
sets them to the fixed placeholder `socks5://localhost:9050` rather than
to the configured proxy address; when the condition fails they are not
set.  (The side conditions exclude a working directory or configured path
literally named like a proxy variable.) -/
theorem c4_proxy_env_vars (o : OSOracle) (cmd : String) (opts : SandboxOptions)
    (hcwd : ∀ v ∈ ["HTTP_PROXY", "HTTPS_PROXY", "http_proxy", "https_proxy"],
      ¬ (o.abspath opts.cwd = v))
    (hden4 : ∀ p ∈ opts.denied_read_paths,
      o.pathExists (o.expanduser p) = true →
      o.expanduser p ∉ ["HTTP_PROXY", "HTTPS_PROXY", "http_proxy", "https_proxy"])
    (hwr4 : ∀ p ∈ opts.allowed_write_paths,
      o.pathExists (o.abspath p) = true →
      o.abspath p ∉ ["HTTP_PROXY", "HTTPS_PROXY", "http_proxy", "https_proxy"])
    (hrd4 : ∀ p ∈ opts.allowed_read_paths,
      o.pathExists (o.abspath p) = true →
      o.abspath p ∉ ["HTTP_PROXY", "HTTPS_PROXY", "http_proxy", "https_proxy"]) :
    (∀ v ∈ ["HTTP_PROXY", "HTTPS_PROXY", "http_proxy", "https_proxy"],
      hasPair "--setenv" v (bwrapArgs o cmd opts) =
        (opts.network_isolation && optStrTruthy opts.proxy_socket_path)) ∧
    ((opts.network_isolation && optStrTruthy opts.proxy_socket_path) = true →
      ∀ v ∈ ["HTTP_PROXY", "HTTPS_PROXY", "http_proxy", "https_proxy"],
        hasPair v hardcodedProxyUrl (bwrapArgs o cmd opts) = true) := by
  constructor
  · intro v hv
    by_cases hact :
        (opts.network_isolation && optStrTruthy opts.proxy_socket_path) = true
    · rw [hact]
      refine hasPair_bwrapArgs_of_proxy o cmd opts ?_
      rw [proxyArgs_active opts hact]
      fin_cases hv <;> decide
    · have hact' :
          (opts.network_isolation && optStrTruthy opts.proxy_socket_path) = false :=
        Bool.eq_false_iff.mpr hact
      rw [hact']
      have hvmem : v ∈ ["HTTP_PROXY", "HTTPS_PROXY", "http_proxy", "https_proxy"] := hv
      refine hasPair_bwrapArgs_false o cmd opts "--setenv" v ?_ ?_ ?_ ?_ ?_ ?_ ?_ ?_
      · decide
      · decide
      · fin_cases hvmem <;> decide
      · exact hcwd v hv
      · exact fun p hp hex he => hden4 p hp hex (he ▸ hv)
      · exact fun p hp hex he => hwr4 p hp hex (he ▸ hv)
      · exact fun p hp hex he => hrd4 p hp hex (he ▸ hv)
      · intro h; rw [h] at hact'; exact nomatch hact'
  · intro hact v hv
    refine hasPair_bwrapArgs_of_proxy o cmd opts ?_
    rw [proxyArgs_active opts hact]
    fin_cases hv <;> decide

/-- Witness for C4's amended theorem at a concrete input: proxy active and
inactive. -/
theorem c4_proxy_env_vars_witness :
    hasPair "--setenv" "HTTP_PROXY"
        (bwrapArgs testOracle "curl x"
          { network_isolation := true, proxy_socket_path := some "127.0.0.1:9050",
            cwd := "/work" }) = true ∧
      hasPair "--setenv" "HTTP_PROXY"
        (bwrapArgs testOracle "curl x"
          { network_isolation := false, proxy_socket_path := none,
            cwd := "/work" }) = false :=
  ⟨((c4_proxy_env_vars testOracle "curl x"
      { network_isolation := true, proxy_socket_path := some "127.0.0.1:9050",
        cwd := "/work" }
      (by decide) (by decide) (by decide) (by decide)).1
      "HTTP_PROXY" (by decide)).trans (by decide),
   ((c4_proxy_env_vars testOracle "curl x"
      { network_isolation := false, proxy_socket_path := none, cwd := "/work" }
      (by decide) (by decide) (by decide) (by decide)).1
      "HTTP_PROXY" (by decide)).trans (by decide)⟩

/-- A token that does not exist on the filesystem never forms a bind pair
in the invocation (specialization of the master lemma: every configured
path that produces a block exists, so none of them can equal `b`). -/
theorem hasPair_bwrapArgs_false_of_not_exists (o : OSOracle) (cmd : String)
    (opts : SandboxOptions) (a b : String)
    (ha1 : ¬ ("-c" = a)) (ha2 : a ∉ safeEnvVars)
    (hb1 : b ∉ reservedTokens)
    (hb2 : ¬ (o.abspath opts.cwd = b))
    (hbpl : b ∉ ["HTTP_PROXY", "HTTPS_PROXY", "http_proxy", "https_proxy",
      hardcodedProxyUrl])
    (hexb : o.pathExists b = false) :
    hasPair a b (bwrapArgs o cmd opts) = false := by
  refine hasPair_bwrapArgs_false o cmd opts a b ha1 ha2 hb1 hb2 ?_ ?_ ?_
    (fun _ => hbpl)
  · intro q hq hex he
    rw [he, hexb] at hex
    exact nomatch hex
  · intro q hq hex he
    rw [he, hexb] at hex
    exact nomatch hex
  · intro q hq hex he
    rw [he, hexb] at hex
    exact nomatch hex

/-- Lifting a pair of the scope segment into the full invocation. -/
theorem hasPair_bwrapArgs_of_scope (o : OSOracle) (cmd : String)
    (opts : SandboxOptions) {x y : String}
    (h : hasPair x y (scopeArgs o opts (o.abspath opts.cwd)) = true) :
    hasPair x y (bwrapArgs o cmd opts) = true := by
  unfold bwrapArgs
  exact hasPair_append_left _ (hasPair_append_left _ (hasPair_append_left _
    (hasPair_append_left _ (hasPair_append_right _ h))))

/-- C9 counterexample: the claim quantifies over all three configured path
lists, but each read scope processes only two of them.  With everything
existing on disk, a denied read path gets no tmpfs overlay under
restricted scope (linux_isolator.py lines 77–113 never touch
`denied_read_paths`), and an allowed read path gets no individual bind
under broad scope (lines 52–75 never touch `allowed_read_paths`). -/
theorem c9_unprocessed_lists :
    (({ pathExists := fun _ => true, expanduser := id, abspath := id,
        whichSystemdRun := false, environ := fun _ => none,
        getcwd := "/work" } : OSOracle).pathExists "/secret" = true) ∧
      hasPair "--tmpfs" "/secret"
        (bwrapArgs
          { pathExists := fun _ => true, expanduser := id, abspath := id,
            whichSystemdRun := false, environ := fun _ => none,
            getcwd := "/work" }
          "ls"
          { read_scope := "restricted", denied_read_paths := ["/secret"],
            allowed_read_paths := [], allowed_write_paths := [],
            network_isolation := false, cwd := "/work" }) = false ∧
      hasPair "--ro-bind" "/opt/data"
        (bwrapArgs
          { pathExists := fun _ => true, expanduser := id, abspath := id,
            whichSystemdRun := false, environ := fun _ => none,
            getcwd := "/work" }
          "ls"
          { read_scope := "broad", denied_read_paths := [],
            allowed_read_paths := ["/opt/data"], allowed_write_paths := [],
            network_isolation := false, cwd := "/work" }) = false := by
  refine ⟨rfl, by decide, by decide⟩

/-- C9 amended: for the path lists the active read scope actually
processes — denied-read and allowed-write under broad scope, allowed-read
and allowed-write under restricted scope — the generated invocation
contains the corresponding tmpfs/bind argument pair iff the normalized
path exists on the filesystem at wrap time; the remaining list is silently
ignored (see the counterexample).  The side conditions exclude a path
colliding with a fixed bwrap token, a proxy variable, or the working
directory (which the code binds regardless of existence). -/
theorem c9_scope_binds_iff_exists (o : OSOracle) (cmd : String)
    (opts : SandboxOptions) :
    (opts.read_scope = "broad" →
      (∀ p ∈ opts.denied_read_paths,
        o.expanduser p ∉ reservedTokens →
        o.expanduser p ∉ ["HTTP_PROXY", "HTTPS_PROXY", "http_proxy",
          "https_proxy", hardcodedProxyUrl] →
        ¬ (o.abspath opts.cwd = o.expanduser p) →
        hasPair "--tmpfs" (o.expanduser p) (bwrapArgs o cmd opts) =
          o.pathExists (o.expanduser p)) ∧
      (∀ p ∈ opts.allowed_write_paths,
        o.abspath p ∉ reservedTokens →
        o.abspath p ∉ ["HTTP_PROXY", "HTTPS_PROXY", "http_proxy",
          "https_proxy", hardcodedProxyUrl] →
        ¬ (o.abspath opts.cwd = o.abspath p) →
        hasPair "--bind" (o.abspath p) (bwrapArgs o cmd opts) =
          o.pathExists (o.abspath p))) ∧
    (¬ (opts.read_scope = "broad") →
      (∀ p ∈ opts.allowed_read_paths,
        o.abspath p ∉ reservedTokens →
        o.abspath p ∉ ["HTTP_PROXY", "HTTPS_PROXY", "http_proxy",
          "https_proxy", hardcodedProxyUrl] →
        ¬ (o.abspath opts.cwd = o.abspath p) →
        hasPair "--ro-bind" (o.abspath p) (bwrapArgs o cmd opts) =
          o.pathExists (o.abspath p)) ∧
      (∀ p ∈ opts.allowed_write_paths,
        o.abspath p ∉ reservedTokens →
        o.abspath p ∉ ["HTTP_PROXY", "HTTPS_PROXY", "http_proxy",
          "https_proxy", hardcodedProxyUrl] →
        ¬ (o.abspath opts.cwd = o.abspath p) →
        hasPair "--bind" (o.abspath p) (bwrapArgs o cmd opts) =
          o.pathExists (o.abspath p))) := by
  constructor
  · intro hbroad
    constructor
    · intro p hp hres hprox hcwd
      by_cases hex : o.pathExists (o.expanduser p) = true
      · rw [hex]
        refine hasPair_bwrapArgs_of_scope o cmd opts ?_
        unfold scopeArgs
        rw [if_pos hbroad]
        refine hasPair_append_left _ (hasPair_append_left _
          (hasPair_append_left _ (hasPair_append_right _ ?_)))
        unfold deniedArgsBroad
        refine hasPair_flatMap_of_mem hp ?_
        simp only [hex, if_true]
        simp [hasPair]
      · have hex' := Bool.eq_false_iff.mpr hex
        rw [hex']
        exact hasPair_bwrapArgs_false_of_not_exists o cmd opts _ _
          (by decide) (by decide) hres hcwd hprox hex'
    · intro p hp hres hprox hcwd
      by_cases hex : o.pathExists (o.abspath p) = true
      · rw [hex]
        refine hasPair_bwrapArgs_of_scope o cmd opts ?_
        unfold scopeArgs
        rw [if_pos hbroad]
        refine hasPair_append_right _ ?_
        unfold writeArgs
        refine hasPair_flatMap_of_mem hp ?_
        simp only [hex, if_true]
        simp [hasPair]
      · have hex' := Bool.eq_false_iff.mpr hex
        rw [hex']
        exact hasPair_bwrapArgs_false_of_not_exists o cmd opts _ _
          (by decide) (by decide) hres hcwd hprox hex'
  · intro hrestr
    constructor
    · intro p hp hres hprox hcwd
      by_cases hex : o.pathExists (o.abspath p) = true
      · rw [hex]
        refine hasPair_bwrapArgs_of_scope o cmd opts ?_
        unfold scopeArgs
        rw [if_neg hrestr]
        refine hasPair_append_left _ (hasPair_append_right _ ?_)
        unfold readArgsRestricted
        refine hasPair_flatMap_of_mem hp ?_
        simp only [hex, if_true]
        simp [hasPair]
      · have hex' := Bool.eq_false_iff.mpr hex
        rw [hex']
        exact hasPair_bwrapArgs_false_of_not_exists o cmd opts _ _
          (by decide) (by decide) hres hcwd hprox hex'
    · intro p hp hres hprox hcwd
      by_cases hex : o.pathExists (o.abspath p) = true
      · rw [hex]
        refine hasPair_bwrapArgs_of_scope o cmd opts ?_
        unfold scopeArgs
        rw [if_neg hrestr]
        refine hasPair_append_right _ ?_
        unfold writeArgs
        refine hasPair_flatMap_of_mem hp ?_
        simp only [hex, if_true]
        simp [hasPair]
      · have hex' := Bool.eq_false_iff.mpr hex
        rw [hex']
        exact hasPair_bwrapArgs_false_of_not_exists o cmd opts _ _
          (by decide) (by decide) hres hcwd hprox hex'

/-- Witness for C9's amended theorem at a concrete input: `/data` exists
and is bound read-write; `/gone` does not exist and is not bound. -/
theorem c9_scope_binds_iff_exists_witness :
    hasPair "--bind" "/data"
        (bwrapArgs
          { pathExists := fun s => s = "/data", expanduser := id, abspath := id,
            whichSystemdRun := false, environ := fun _ => none,
            getcwd := "/work" }
          "ls"
          { read_scope := "broad", denied_read_paths := [],
            allowed_read_paths := [], allowed_write_paths := ["/data", "/gone"],
            network_isolation := false, cwd := "/work" }) = true ∧
      hasPair "--bind" "/gone"
        (bwrapArgs
          { pathExists := fun s => s = "/data", expanduser := id, abspath := id,
            whichSystemdRun := false, environ := fun _ => none,
            getcwd := "/work" }
          "ls"
          { read_scope := "broad", denied_read_paths := [],
            allowed_read_paths := [], allowed_write_paths := ["/data", "/gone"],
            network_isolation := false, cwd := "/work" }) = false :=
  ⟨(((c9_scope_binds_iff_exists
      { pathExists := fun s => s = "/data", expanduser := id, abspath := id,
        whichSystemdRun := false, environ := fun _ => none, getcwd := "/work" }
      "ls"
      { read_scope := "broad", denied_read_paths := [], allowed_read_paths := [],
        allowed_write_paths := ["/data", "/gone"], network_isolation := false,
        cwd := "/work" }).1 rfl).2 "/data" (by decide) (by decide) (by decide)
      (by decide)).trans (by decide),
   (((c9_scope_binds_iff_exists
      { pathExists := fun s => s = "/data", expanduser := id, abspath := id,
        whichSystemdRun := false, environ := fun _ => none, getcwd := "/work" }
      "ls"
      { read_scope := "broad", denied_read_paths := [], allowed_read_paths := [],
        allowed_write_paths := ["/data", "/gone"], network_isolation := false,
        cwd := "/work" }).1 rfl).2 "/gone" (by decide) (by decide) (by decide)
      (by decide)).trans (by decide)⟩
